import Mathlib

/-!
Shallow embedding of the skycam projection core
(`src/skycam/domain/projection.py`, `src/skycam/domain/aircraft_projection.py`,
`src/skycam/domain/exceptions.py`) together with theorems settling the
frozen claims about the natural-language specification.

Conventions of the embedding:
* machine floats are idealized as exact real numbers `ℝ` (or exact
  rationals `ℚ` where the computation is pure arithmetic), except for one
  dedicated model (`FP`) that tracks IEEE non-finite propagation;
* numpy arrays are lists / index functions with explicit dimensions;
* Python exceptions are `Except` values;
* the two external numerical engines consumed by the code —
  `geographiclib.geodesic.Geodesic.WGS84` and
  `scipy.interpolate.LinearNDInterpolator` — are abstracted as function
  parameters (`Geod`, `LndiEval`; the latter's construction step may fail,
  as the real Qhull triangulation does on degenerate sample sets);
  `scipy.interpolate.RegularGridInterpolator` is small enough to be
  embedded directly (`regularGridSample`).
-/

namespace Skycam

/-- Degrees to radians, as in `np.radians` / `math.radians`. -/
noncomputable def degToRad (d : ℝ) : ℝ := d * Real.pi / 180

/-- Radians to degrees, as in `np.degrees` / `math.degrees`. -/
noncomputable def radToDeg (x : ℝ) : ℝ := x * 180 / Real.pi

/-- Two-argument arctangent, as in `np.arctan2 y x` : the angle of the point
`(x, y)` in `(−π, π]`, with `atan2 0 0 = 0`.  Embedded via `Complex.arg`. -/
noncomputable def atan2 (y x : ℝ) : ℝ := Complex.arg ⟨x, y⟩

/-- Python / numpy float modulo `x % y`: the result has the sign of the
divisor; for `y > 0` it lies in `[0, y)`.  `x % y = x − y·⌊x/y⌋`. -/
noncomputable def pymod (x y : ℝ) : ℝ := x - y * ⌊x / y⌋

/-- Raw uint8 image of shape `(H, W, C)`; `pix i j ch` is the integer pixel
value at row `i`, column `j`, channel `ch`. -/
structure Image where
  H : ℕ
  W : ℕ
  C : ℕ
  pix : ℕ → ℕ → ℕ → ℤ

/-- Value semantics of
`scipy.interpolate.RegularGridInterpolator((arange H, arange W), image,
bounds_error=False, fill_value=0)` evaluated at one query `(r, c)` for
channel `ch` — the regular-grid sampler used by `ProjectionService.project`.
A query is out of bounds (and filled with `0`) iff it lies strictly outside
`[0, H−1] × [0, W−1]`; queries on the boundary are interpolated.  In-bounds
queries use bilinear interpolation on the cell `[i, i+1] × [j, j+1]` with
`i = min ⌊r⌋ (H−2)` (scipy clamps the interval index at the far boundary,
so `r = H−1` lands in the last cell with fraction 1 — same value).
Generic over a linear ordered field so that the `ℚ` instance is decidable. -/
def regularGridSample {α : Type} [LinearOrderedField α] [FloorRing α]
    (img : Image) (r c : α) (ch : ℕ) : α :=
  if r < 0 ∨ ((img.H : α) - 1) < r ∨ c < 0 ∨ ((img.W : α) - 1) < c then 0
  else
    let i : ℤ := min ⌊r⌋ ((img.H : ℤ) - 2)
    let j : ℤ := min ⌊c⌋ ((img.W : ℤ) - 2)
    let a : α := r - (i : α)
    let b : α := c - (j : α)
    let v00 : α := (img.pix i.toNat j.toNat ch : α)
    let v01 : α := (img.pix i.toNat (j + 1).toNat ch : α)
    let v10 : α := (img.pix (i + 1).toNat j.toNat ch : α)
    let v11 : α := (img.pix (i + 1).toNat (j + 1).toNat ch : α)
    (1 - a) * (1 - b) * v00 + (1 - a) * b * v01 + a * (1 - b) * v10 + a * b * v11

/-- Modelled from the spec: `CalibrationData` (the module
`skycam/domain/models.py` that defines it is not under `src/`).  Per the
spec: "`azimuth_map` and `zenith_map`, each a 2D array of IEEE-754 double,
indexed by raw-frame pixel; `image_size` = (height, width).  Units:
radians.  Missing-calibration entries are encoded as NaN."  NaN entries are
`none`. -/
structure CalibrationData where
  azimuthMap : ℕ → ℕ → Option ℝ
  zenithMap : ℕ → ℕ → Option ℝ
  imageSize : ℕ × ℕ

/-- Modelled from the spec: `ProjectionSettings` (defined in the missing
`skycam/domain/models.py`).  "`resolution` (positive integer, output grid is
resolution × resolution); `square_size` (meters, positive); `cloud_height`
(meters, positive); `max_zenith_angle` (degrees in (0, 90])."  The float
fields are idealized as exact rationals. -/
structure ProjectionSettings where
  resolution : ℕ
  squareSize : ℚ
  cloudHeight : ℚ
  maxZenithAngle : ℚ

/-- Validation of `ProjectionSettings` at construction, per the spec:
"`resolution ≥ 2`, `square_size > 0`, `cloud_height > 0`,
`0 < max_zenith_angle ≤ 90`". -/
def ProjectionSettings.Valid (st : ProjectionSettings) : Prop :=
  2 ≤ st.resolution ∧ 0 < st.squareSize ∧ 0 < st.cloudHeight ∧
    0 < st.maxZenithAngle ∧ st.maxZenithAngle ≤ 90

/-- `half_size = square_size / 2` from `_init_interpolators`. -/
def halfSizeQ (st : ProjectionSettings) : ℚ := st.squareSize / 2

/-- `step = square_size / (resolution - 1)` from `_init_interpolators`. -/
def stepQ (st : ProjectionSettings) : ℚ := st.squareSize / ((st.resolution : ℚ) - 1)

/-- Number of samples of `np.arange start stop step`:
`max (⌈(stop − start) / step⌉) 0`. -/
def arangeLen (start stop step : ℚ) : ℕ := (⌈(stop - start) / step⌉).toNat

/-- Samples of `np.arange start stop step` : the list
`[start, start + step, …]` of length `arangeLen start stop step`. -/
def arangeQ (start stop step : ℚ) : List ℚ :=
  (List.range (arangeLen start stop step)).map fun k : ℕ => start + (k : ℚ) * step

/-- The output-grid axis `x = np.arange(-half_size, half_size + step, step)`
built by `_init_interpolators` (the `y` axis is the same array). -/
def gridXs (st : ProjectionSettings) : List ℚ :=
  arangeQ (-halfSizeQ st) (halfSizeQ st + stepQ st) (stepQ st)

/-- `grid_xy[0][i][j] = x[j]` of `np.meshgrid(x, y)` (after the implicit
broadcast), as a real number; out-of-range indices default to 0. -/
noncomputable def meshX (st : ProjectionSettings) (_i j : ℕ) : ℝ :=
  (((gridXs st).getD j 0 : ℚ) : ℝ)

/-- `grid_xy[1][i][j] = y[i]` of `np.meshgrid(x, y)`. -/
noncomputable def meshY (st : ProjectionSettings) (i _j : ℕ) : ℝ :=
  (((gridXs st).getD i 0 : ℚ) : ℝ)

/-- `r = np.sqrt(grid_xy[0]**2 + grid_xy[1]**2)` at cell `(i, j)`. -/
noncomputable def cellR (st : ProjectionSettings) (i j : ℕ) : ℝ :=
  Real.sqrt (meshX st i j ^ 2 + meshY st i j ^ 2)

/-- `interpolation_zenith = np.arctan(r / cloud_height)` at cell `(i, j)`. -/
noncomputable def cellZenith (st : ProjectionSettings) (i j : ℕ) : ℝ :=
  Real.arctan (cellR st i j / (st.cloudHeight : ℝ))

/-- `interpolation_azimuth = np.arctan2(grid_xy[1], grid_xy[0])` at cell
`(i, j)`, before the legacy alignment. -/
noncomputable def cellAzimuthRaw (st : ProjectionSettings) (i j : ℕ) : ℝ :=
  atan2 (meshY st i j) (meshX st i j)

/-- The legacy azimuth alignment
`interpolation_azimuth = (interpolation_azimuth - 3π/2) % (2π) - π`
applied at cell `(i, j)`. -/
noncomputable def cellAzimuth (st : ProjectionSettings) (i j : ℕ) : ℝ :=
  pymod (cellAzimuthRaw st i j - 3 * Real.pi / 2) (2 * Real.pi) - Real.pi

/-- Cell `(i, j)` of `self._azimuth_zenith_grid = np.stack([azimuth, zenith],
axis=-1)`. -/
noncomputable def azimuthZenithCell (st : ProjectionSettings) (i j : ℕ) : ℝ × ℝ :=
  (cellAzimuth st i j, cellZenith st i j)

/-- `max_zenith * np.pi / 180`, the mask threshold of `_init_interpolators`. -/
noncomputable def maxZenithRad (st : ProjectionSettings) : ℝ :=
  (st.maxZenithAngle : ℝ) * Real.pi / 180

/-- The masked calibration samples fed to `LinearNDInterpolator`: for every
raw pixel `(i, j)` (row-major flattening) whose azimuth and zenith are
non-NaN and whose zenith is `≤ max_zenith_angle` in radians, the pair
`((azimuth, zenith), (i, j))` of angular point and raw-pixel value.
Mirrors `restriction_array`, the NaN mask, and the transposed
`np.meshgrid(arange H, arange W)` coordinate stack of
`_init_interpolators`. -/
noncomputable def calibPoints (cal : CalibrationData) (st : ProjectionSettings) :
    List ((ℝ × ℝ) × (ℝ × ℝ)) :=
  ((List.range cal.imageSize.1).map fun i =>
    (List.range cal.imageSize.2).filterMap fun j =>
      match cal.azimuthMap i j, cal.zenithMap i j with
      | some az, some ze =>
          if ze ≤ maxZenithRad st then some ((az, ze), ((i : ℝ), (j : ℝ))) else none
      | _, _ => none).flatten

/-- Abstraction of `scipy.interpolate.LinearNDInterpolator`: given the list
of (point, value) samples, construction either fails (Qhull error when the
masked samples admit no triangulation — e.g. fewer than three non-collinear
points; the exception escapes `__post_init__`) or yields an evaluation
function, `none` being the NaN result returned outside the convex hull of
the points. -/
def LndiEval : Type :=
  List ((ℝ × ℝ) × (ℝ × ℝ)) → Except String ((ℝ × ℝ) → Option (ℝ × ℝ))

/-- The cached `_azimuth_zenith_grid` array: dimensions plus cell values. -/
structure AzGrid where
  rows : ℕ
  cols : ℕ
  cell : ℕ → ℕ → ℝ × ℝ

/-- `ProjectionError` from `skycam/domain/exceptions.py`. -/
structure ProjectionError where
  msg : String

/-- State of a `ProjectionService` dataclass instance: the construction
inputs plus the two cached private fields (both `None` until
`_init_interpolators` has run). -/
structure ProjectionService where
  calibration : CalibrationData
  settings : ProjectionSettings
  azimuthZenithToPixelRaw : Option ((ℝ × ℝ) → Option (ℝ × ℝ))
  azimuthZenithGrid : Option AzGrid

/-- Effect of `_init_interpolators` on the two cached fields: build the
output-grid angular array and the `LinearNDInterpolator` over the masked
calibration samples and store both (`some`) — unless interpolant
construction fails, in which case the exception propagates (the method
catches nothing). -/
noncomputable def initInterpolators (lndi : LndiEval) (cal : CalibrationData)
    (st : ProjectionSettings) :
    Except String (Option ((ℝ × ℝ) → Option (ℝ × ℝ)) × Option AzGrid) :=
  match lndi (calibPoints cal st) with
  | .error e => .error e
  | .ok F =>
      .ok (some F, some ⟨(gridXs st).length, (gridXs st).length, azimuthZenithCell st⟩)

/-- Construction of a `ProjectionService(calibration, settings)`:
`__post_init__` immediately calls `_init_interpolators`, so either the
constructor raises (interpolant construction failed and no instance
exists) or both cached fields are populated when it returns. -/
noncomputable def mkProjectionService (lndi : LndiEval) (cal : CalibrationData)
    (st : ProjectionSettings) : Except String ProjectionService :=
  match initInterpolators lndi cal st with
  | .error e => .error e
  | .ok c =>
      .ok { calibration := cal
            settings := st
            azimuthZenithToPixelRaw := c.1
            azimuthZenithGrid := c.2 }

/-- Output array of `project`: a `(rows, cols, channels)` float array.  A
cell value of `none` is a NaN sample (out-of-hull query on the float64
path; its uint8 cast is platform-defined). -/
structure Output where
  rows : ℕ
  cols : ℕ
  channels : ℕ
  cell : ℕ → ℕ → ℕ → Option ℝ

/-- Best-effort model of `astype(np.uint8)` on a float: C-style truncation
toward zero, then wrap modulo 256. -/
noncomputable def castUint8 (x : ℝ) : ℝ :=
  (((if 0 ≤ x then ⌊x⌋ else -⌊-x⌋) % 256 : ℤ) : ℝ)

/-- `ProjectionService.project(image, as_uint8)`.  Mirrors the source: raise
`ProjectionError` if either cached field is `None`; the whole body is then
wrapped in `try/except Exception → ProjectionError`.  Inside the try block
there is no shape check: the regular-grid sampler is built over the input
image's own shape, whatever it is.  The one internal failure reachable in
this idealization is an image with a zero-length axis, whose empty grid
axis is indexed by the sampler's bounds check (`x < grid[0]` → IndexError)
and wrapped into `ProjectionError`; a degenerate single-point axis merely
yields NaN samples, not an exception.  Otherwise the calibration
interpolant is evaluated on every cell of `_azimuth_zenith_grid`; in-hull
coordinates are sampled bilinearly (out-of-frame ones filling with 0),
while out-of-hull (NaN) coordinates produce NaN samples (`none`), which
the uint8 cast maps to a platform-defined value (kept `none`). -/
noncomputable def project (svc : ProjectionService) (img : Image) (asUint8 : Bool) :
    Except ProjectionError Output :=
  match svc.azimuthZenithToPixelRaw with
  | none => .error ⟨"Interpolators not initialized"⟩
  | some F =>
    match svc.azimuthZenithGrid with
    | none => .error ⟨"Grid not initialized"⟩
    | some G =>
      if img.H = 0 ∨ img.W = 0 then
        .error ⟨"Projection failed: zero-size image axis"⟩
      else
        .ok
          { rows := G.rows
            cols := G.cols
            channels := img.C
            cell := fun i j ch =>
              let v : Option ℝ :=
                match F (G.cell i j) with
                | some rc => some (regularGridSample img rc.1 rc.2 ch)
                | none => none
              if asUint8 then v.map castUint8 else v }

/-- Abstraction of `geographiclib.geodesic.Geodesic.WGS84`, the external
geodesic engine held in `self._geod`.  `Inverse lat1 lon1 lat2 lon2`
returns `(azi1, s12)` — initial azimuth in degrees and geodesic ground
distance in meters; `Direct lat1 lon1 azi1 s12` returns `(lat2, lon2)`. -/
structure Geod where
  Inverse : ℝ → ℝ → ℝ → ℝ → ℝ × ℝ
  Direct : ℝ → ℝ → ℝ → ℝ → ℝ × ℝ

/-- `AircraftProjectionSettings` (pydantic, frozen): `cloud_height ≥ 100`,
`square_size ≥ 1000`, `64 ≤ resolution ≤ 8192`; floats idealized as reals. -/
structure AircraftProjectionSettings where
  cloudHeight : ℝ
  squareSize : ℝ
  resolution : ℕ

/-- The pydantic field validation of `AircraftProjectionSettings`. -/
def AircraftProjectionSettings.Valid (s : AircraftProjectionSettings) : Prop :=
  100 ≤ s.cloudHeight ∧ 1000 ≤ s.squareSize ∧ 64 ≤ s.resolution ∧ s.resolution ≤ 8192

/-- State of an `AircraftProjector` after `__init__`: observer coordinates,
settings, and the geodesic engine. -/
structure AircraftProjector where
  cameraLat : ℝ
  cameraLon : ℝ
  cameraAlt : ℝ
  settings : AircraftProjectionSettings
  geod : Geod

/-- `self._half = settings.square_size / 2`. -/
noncomputable def pHalf (p : AircraftProjector) : ℝ := p.settings.squareSize / 2

/-- `self._step = settings.square_size / (settings.resolution - 1)`. -/
noncomputable def pStep (p : AircraftProjector) : ℝ :=
  p.settings.squareSize / ((p.settings.resolution : ℝ) - 1)

/-- One element of `_calculate_azimuth_zenith(lat, lon, alt_m)`: geodesic
inverse from the camera to the target, then
`zenith = 90 − degrees(arcsin(dz / √(s12² + dz²)))`.  Returns
`(azi1_degrees, zenith_degrees)`. -/
noncomputable def calcAzimuthZenith1 (p : AircraftProjector) (lat lon altM : ℝ) : ℝ × ℝ :=
  let inv := p.geod.Inverse p.cameraLat p.cameraLon lat lon
  let dz := altM - p.cameraAlt
  let straight := Real.sqrt (inv.2 ^ 2 + dz ^ 2)
  let elevation := radToDeg (Real.arcsin (dz / straight))
  (inv.1, 90 - elevation)

/-- One element of `_azimuth_zenith_to_lonlat(azimuth_deg, zenith_deg,
alt_m)`: `distance_on_surface = dz / tan(radians(90 − zenith))`, then the
geodesic direct problem.  Returns `(lon2, lat2)`. -/
noncomputable def azimuthZenithToLonlat1 (p : AircraftProjector) (azimuthDeg zenithDeg altM : ℝ) :
    ℝ × ℝ :=
  let elevationRad := degToRad (90 - zenithDeg)
  let dz := altM - p.cameraAlt
  let distanceOnSurface := dz / Real.tan elevationRad
  let res := p.geod.Direct p.cameraLat p.cameraLon azimuthDeg distanceOnSurface
  (res.2, res.1)

/-- One element of `_azimuth_zenith_to_xy(azimuth_deg, zenith_deg)`:
`r = cloud_height · tan(zenith)`, `x = r·cos(az)`, `y = r·sin(az)`,
returned shifted to grid coordinates `(y + half, half − x)`. -/
noncomputable def azimuthZenithToXY1 (p : AircraftProjector) (azimuthDeg zenithDeg : ℝ) :
    ℝ × ℝ :=
  let az := degToRad azimuthDeg
  let ze := degToRad zenithDeg
  let r := p.settings.cloudHeight * Real.tan ze
  let x := r * Real.cos az
  let y := r * Real.sin az
  (y + pHalf p, pHalf p - x)

/-- One element of `_xy_to_azimuth_zenith(x, y)`: recenter
(`x_centered = half − y`, `y_centered = x − half`), then
`az = atan2(y_c, x_c)`, `zen = atan(r / cloud_height)`, both in degrees. -/
noncomputable def xyToAzimuthZenith1 (p : AircraftProjector) (x y : ℝ) : ℝ × ℝ :=
  let xCentered := pHalf p - y
  let yCentered := x - pHalf p
  let r := Real.sqrt (xCentered ^ 2 + yCentered ^ 2)
  (radToDeg (atan2 yCentered xCentered),
   radToDeg (Real.arctan (r / p.settings.cloudHeight)))

/-- One element of `_xy_to_pixels(x, y)`: divide by `self._step`. -/
noncomputable def xyToPixels1 (p : AircraftProjector) (x y : ℝ) : ℝ × ℝ :=
  (x / pStep p, y / pStep p)

/-- One element of `_pixels_to_xy(px, py)`: multiply by `self._step`. -/
noncomputable def pixelsToXY1 (p : AircraftProjector) (px py : ℝ) : ℝ × ℝ :=
  (px * pStep p, py * pStep p)

/-- Elementwise composition inside `lonlat_to_pixels` (after input
validation): azimuth/zenith, then planar, then pixels. -/
noncomputable def lonlatToPixels1 (p : AircraftProjector) (lon lat altM : ℝ) : ℝ × ℝ :=
  let azZe := calcAzimuthZenith1 p lat lon altM
  let xy := azimuthZenithToXY1 p azZe.1 azZe.2
  xyToPixels1 p xy.1 xy.2

/-- Elementwise composition inside `pixels_to_lonlat` (after input
validation): planar, then azimuth/zenith, then geographic. -/
noncomputable def pixelsToLonlat1 (p : AircraftProjector) (px py altM : ℝ) : ℝ × ℝ :=
  let xy := pixelsToXY1 p px py
  let azZe := xyToAzimuthZenith1 p xy.1 xy.2
  azimuthZenithToLonlat1 p azZe.1 azZe.2 altM

/-- A numpy-coercible argument to the public batch methods: either a bare
scalar or a 1-D float64 array. -/
inductive NpValue where
  | scalar (x : ℝ)
  | array (xs : List ℝ)

/-- `np.atleast_1d(np.asarray(v, dtype=np.float64))`: a scalar becomes an
array of shape `(1,)`; an array is returned unchanged. -/
def atleast1d : NpValue → List ℝ
  | .scalar x => [x]
  | .array xs => xs

/-- `AircraftProjector.lonlat_to_pixels(lon, lat, alt_m)`: coerce each input
with `atleast_1d`, raise `ValueError` when the shapes differ, otherwise
apply the elementwise pipeline, returning `(px_array, py_array)`. -/
noncomputable def lonlatToPixels (p : AircraftProjector) (lon lat altM : NpValue) :
    Except String (List ℝ × List ℝ) :=
  let lo := atleast1d lon
  let la := atleast1d lat
  let al := atleast1d altM
  if lo.length = la.length ∧ la.length = al.length then
    let pts := (lo.zip (la.zip al)).map fun q => lonlatToPixels1 p q.1 q.2.1 q.2.2
    .ok (pts.map Prod.fst, pts.map Prod.snd)
  else .error "Input arrays must have matching shapes"

/-- `AircraftProjector.pixels_to_lonlat(px, py, alt_m)`: same validation,
inverse pipeline, returning `(lon_array, lat_array)`. -/
noncomputable def pixelsToLonlat (p : AircraftProjector) (px py altM : NpValue) :
    Except String (List ℝ × List ℝ) :=
  let xs := atleast1d px
  let ys := atleast1d py
  let al := atleast1d altM
  if xs.length = ys.length ∧ ys.length = al.length then
    let pts := (xs.zip (ys.zip al)).map fun q => pixelsToLonlat1 p q.1 q.2.1 q.2.2
    .ok (pts.map Prod.fst, pts.map Prod.snd)
  else .error "Input arrays must have matching shapes"

/-- A 3-D vertex `(c1, c2, c3)`; `c3` is altitude in meters. -/
abbrev V3 : Type := ℝ × ℝ × ℝ

/-- Shapely 3-D geometries handled by `shapely.transform`: point,
multi-point, linestring, multi-linestring, polygon (shell plus holes),
multi-polygon, geometry collection.  Vertices are always 3-D (the source
raises `ValueError` on 2-D geometries before transforming, so 2-D ones
never reach the traversal). -/
inductive Geometry where
  | point (p : V3)
  | multiPoint (ps : List V3)
  | lineString (ps : List V3)
  | multiLineString (lines : List (List V3))
  | polygon (shell : List V3) (holes : List (List V3))
  | multiPolygon (polys : List (List V3 × List (List V3)))
  | collection (gs : List Geometry)

/-- Topology skeleton of a geometry: the constructor tree with each vertex
list replaced by its length.  Equal skeletons mean equal geometry type and
equal vertex counts, ring by ring. -/
inductive Skeleton where
  | point
  | multiPoint (n : ℕ)
  | lineString (n : ℕ)
  | multiLineString (ns : List ℕ)
  | polygon (n : ℕ) (ns : List ℕ)
  | multiPolygon (ps : List (ℕ × List ℕ))
  | collection (ss : List Skeleton)

mutual

/-- Skeleton of a geometry. -/
def skeleton : Geometry → Skeleton
  | .point _ => .point
  | .multiPoint ps => .multiPoint ps.length
  | .lineString ps => .lineString ps.length
  | .multiLineString ls => .multiLineString (ls.map List.length)
  | .polygon sh hs => .polygon sh.length (hs.map List.length)
  | .multiPolygon ps => .multiPolygon (ps.map fun q => (q.1.length, q.2.map List.length))
  | .collection gs => .collection (skeletonList gs)

/-- Skeletons of a list of geometries. -/
def skeletonList : List Geometry → List Skeleton
  | [] => []
  | g :: gs => skeleton g :: skeletonList gs

end

/-- Third coordinates of one vertex ring. -/
def ringAlts (ps : List V3) : List ℝ := ps.map fun v => v.2.2

/-- Third coordinates of a list of rings, concatenated. -/
def ringsAlts (ls : List (List V3)) : List ℝ := (ls.map ringAlts).flatten

/-- Third coordinates of one polygon (shell then holes). -/
def polyAlts (q : List V3 × List (List V3)) : List ℝ := ringAlts q.1 ++ ringsAlts q.2

mutual

/-- All third coordinates (altitudes) of a geometry, in traversal order. -/
def altitudes : Geometry → List ℝ
  | .point p => [p.2.2]
  | .multiPoint ps => ringAlts ps
  | .lineString ps => ringAlts ps
  | .multiLineString ls => ringsAlts ls
  | .polygon sh hs => ringAlts sh ++ ringsAlts hs
  | .multiPolygon ps => (ps.map polyAlts).flatten
  | .collection gs => altitudesList gs

/-- Concatenated altitudes of a list of geometries. -/
def altitudesList : List Geometry → List ℝ
  | [] => []
  | g :: gs => altitudes g ++ altitudesList gs

end

mutual

/-- Vertex-wise traversal performed by `shapely.transform(geom, wrapper,
include_z=True)` inside `_project_geom`: every vertex of every part (shell
and holes included) is replaced by `f` applied to it, and the geometry is
reassembled with the same topology.  Empty parts are mapped to empty parts,
matching the `is_empty` early return. -/
def mapVerts (f : V3 → V3) : Geometry → Geometry
  | .point p => .point (f p)
  | .multiPoint ps => .multiPoint (ps.map f)
  | .lineString ps => .lineString (ps.map f)
  | .multiLineString ls => .multiLineString (ls.map (List.map f))
  | .polygon sh hs => .polygon (sh.map f) (hs.map (List.map f))
  | .multiPolygon ps => .multiPolygon (ps.map fun q => (q.1.map f, q.2.map (List.map f)))
  | .collection gs => .collection (mapVertsList f gs)

/-- `mapVerts` on each geometry of a collection. -/
def mapVertsList (f : V3 → V3) : List Geometry → List Geometry
  | [] => []
  | g :: gs => mapVerts f g :: mapVertsList f gs

end

/-- The `wrapper` closure of `_project_geom` at one vertex: apply the
projection function to `(c1, c2, alt)` and keep the altitude column
unchanged (`np.column_stack((c1_proj, c2_proj, alt_m))`). -/
def projVert (f : ℝ → ℝ → ℝ → ℝ × ℝ) (v : V3) : V3 :=
  ((f v.1 v.2.1 v.2.2).1, (f v.1 v.2.1 v.2.2).2, v.2.2)

/-- `AircraftProjector.project_geometry(geom)`: transform with
`proj_func = lonlat_to_pixels`. -/
noncomputable def projectGeometry (p : AircraftProjector) (g : Geometry) : Geometry :=
  mapVerts (projVert (lonlatToPixels1 p)) g

/-- `AircraftProjector.project_geometry_back(geom)`: transform with
`proj_func = pixels_to_lonlat`. -/
noncomputable def projectGeometryBack (p : AircraftProjector) (g : Geometry) : Geometry :=
  mapVerts (projVert (pixelsToLonlat1 p)) g

/-- IEEE-754-aware scalar for the NaN-propagation model: `some x` is a
finite double of value `x`, `none` is a non-finite double (NaN or ±Inf).
On the computation paths modelled here the only non-finite value ever
produced is the NaN of `0/0`, which then propagates. -/
abbrev FP : Type := Option ℝ

/-- Float addition: finite inputs stay finite, non-finite propagates. -/
def fadd (a b : FP) : FP := a.bind fun x => b.map fun y => x + y

/-- Float subtraction. -/
def fsub (a b : FP) : FP := a.bind fun x => b.map fun y => x - y

/-- Float multiplication.  A non-finite factor gives a non-finite result
(`NaN·c = NaN`, `±Inf·c = ±Inf` or `NaN`). -/
def fmul (a b : FP) : FP := a.bind fun x => b.map fun y => x * y

/-- Float division.  Division by zero is non-finite (`0/0 = NaN`,
`x/0 = ±Inf`); a non-finite operand propagates. -/
noncomputable def fdiv (a b : FP) : FP :=
  a.bind fun x => b.bind fun y => if y = 0 then none else some (x / y)

/-- Float square root; negative arguments give NaN. -/
noncomputable def fsqrt (a : FP) : FP :=
  a.bind fun x => if x < 0 then none else some (Real.sqrt x)

/-- `np.arcsin`; arguments outside `[−1, 1]` (and NaN) give NaN. -/
noncomputable def farcsin (a : FP) : FP :=
  a.bind fun x => if x < -1 ∨ 1 < x then none else some (Real.arcsin x)

/-- `np.tan` of a finite double is finite (the poles are never hit
exactly); NaN/Inf give NaN. -/
noncomputable def ftan (a : FP) : FP := a.map Real.tan

/-- `np.cos`; non-finite gives NaN. -/
noncomputable def fcos (a : FP) : FP := a.map Real.cos

/-- `np.sin`; non-finite gives NaN. -/
noncomputable def fsin (a : FP) : FP := a.map Real.sin

/-- `np.degrees`. -/
noncomputable def fdegrees (a : FP) : FP := a.map radToDeg

/-- `np.radians`. -/
noncomputable def fradians (a : FP) : FP := a.map degToRad

/-- NaN-propagation model of `lonlat_to_pixels` on a single finite
`(lon, lat, alt)` triple: the same pipeline as `lonlatToPixels1`
(`_calculate_azimuth_zenith`, `_azimuth_zenith_to_xy`, `_xy_to_pixels`),
with every numpy float operation lifted to `FP` so that the NaN produced by
`dz / straight = 0/0` is tracked through to the output. -/
noncomputable def lonlatToPixelsFP (p : AircraftProjector) (lon lat altM : ℝ) : FP × FP :=
  let inv := p.geod.Inverse p.cameraLat p.cameraLon lat lon
  let sGround : FP := some inv.2
  let dz : FP := fsub (some altM) (some p.cameraAlt)
  let straight : FP := fsqrt (fadd (fmul sGround sGround) (fmul dz dz))
  let elevation : FP := fdegrees (farcsin (fdiv dz straight))
  let zenith : FP := fsub (some 90) elevation
  let az : FP := fradians (some inv.1)
  let ze : FP := fradians zenith
  let r : FP := fmul (some p.settings.cloudHeight) (ftan ze)
  let x : FP := fmul r (fcos az)
  let y : FP := fmul r (fsin az)
  let gx : FP := fadd y (some (pHalf p))
  let gy : FP := fsub (some (pHalf p)) x
  (fdiv gx (some (pStep p)), fdiv gy (some (pStep p)))

/-- The public scalar call `lonlat_to_pixels(lon, lat, alt)` in the NaN
model: `atleast_1d` turns the three scalars into length-1 arrays, the shape
check passes, and the elementwise pipeline runs — no exception is raised,
non-finite results are simply returned. -/
noncomputable def lonlatToPixelsFPCall (p : AircraftProjector) (lon lat altM : ℝ) :
    Except String (List FP × List FP) :=
  let lo := [lon]
  let la := [lat]
  let al := [altM]
  if lo.length = la.length ∧ la.length = al.length then
    let pts := (lo.zip (la.zip al)).map fun q => lonlatToPixelsFP p q.1 q.2.1 q.2.2
    .ok (pts.map Prod.fst, pts.map Prod.snd)
  else .error "Input arrays must have matching shapes"

/-- Concrete instantiation of the abstract `LinearNDInterpolator` engine
for witnesses: construction always succeeds (consistent with the real
engine on `cal1`'s well-spread sample set below) and evaluation returns
NaN everywhere. -/
def witLndi : LndiEval := fun _ => .ok (fun _ => none)

/-- Concrete calibration record with `image_size = (4, 4)` whose 16 samples
are all valid — azimuth `i` radians, zenith `j/10` radians (all below the
`max_zenith_angle` mask of `st0`) — and non-collinear in angular space, so
the real interpolant construction succeeds on it. -/
noncomputable def cal1 : CalibrationData :=
  ⟨fun i _ => some (i : ℝ), fun _ j => some ((j : ℝ) / 10), (4, 4)⟩

/-- Concrete valid settings: `resolution = 4`, `square_size = 2`,
`cloud_height = 1`, `max_zenith_angle = 80`. -/
def st0 : ProjectionSettings := ⟨4, 2, 1, 80⟩

/-- Concrete image of shape `(3, 5, 1)` — deliberately different from
`cal1.image_size = (4, 4)`. -/
def img0 : Image := ⟨3, 5, 1, fun _ _ _ => 0⟩

/-- Concrete image with a zero-length row axis, the input on which the
sampling path fails internally. -/
def imgZero : Image := ⟨0, 4, 1, fun _ _ _ => 0⟩

/-- The service instance produced by constructing `ProjectionService` from
`cal1` and `st0` with the `witLndi` engine (see `mkProjectionService`). -/
noncomputable def svc1 : ProjectionService :=
  ⟨cal1, st0, some (fun _ => none),
   some ⟨(gridXs st0).length, (gridXs st0).length, azimuthZenithCell st0⟩⟩

/-- Concrete `2 × 2` single-channel image whose far-corner pixel `(1, 1)`
has value 7 and all other pixels 0. -/
def img1 : Image := ⟨2, 2, 1, fun i j _ => if i = 1 ∧ j = 1 then 7 else 0⟩

/-- Toy geodesic engine for witnesses: the "coordinates" of a point are its
azimuth/distance from the observer, so `Inverse` and `Direct` are exact
mutual inverses by definition. -/
def witGeod : Geod := ⟨fun _ _ la lo => (la, lo), fun _ _ az d => (az, d)⟩

/-- Concrete aircraft-projection settings within the pydantic bounds. -/
def witAirSettings : AircraftProjectionSettings := ⟨100, 1000, 64⟩

/-- Concrete aircraft projector at observer `(0, 0, 0)` with the toy
geodesic engine. -/
def witProj : AircraftProjector := ⟨0, 0, 0, witAirSettings, witGeod⟩

/-- A vertex map that keeps third coordinates keeps them through `List.map`. -/
theorem ringAlts_map (f : V3 → V3) (hf : ∀ v, (f v).2.2 = v.2.2) (ps : List V3) :
    ringAlts (ps.map f) = ringAlts ps := by
  induction ps with
  | nil => rfl
  | cons a l ih =>
      simpa [ringAlts, hf a] using congrArg (fun t => (f a).2.2 :: t) ih

/-- `ringAlts_map`, lifted to a list of rings. -/
theorem ringsAlts_map (f : V3 → V3) (hf : ∀ v, (f v).2.2 = v.2.2) (ls : List (List V3)) :
    ringsAlts (ls.map (List.map f)) = ringsAlts ls := by
  induction ls with
  | nil => rfl
  | cons a l ih => simp [ringsAlts, List.flatten] at ih ⊢; rw [ringAlts_map f hf a, ih]

/-- `ringAlts_map`, lifted to one polygon (shell and holes). -/
theorem polyAlts_map (f : V3 → V3) (hf : ∀ v, (f v).2.2 = v.2.2)
    (q : List V3 × List (List V3)) :
    polyAlts (q.1.map f, q.2.map (List.map f)) = polyAlts q := by
  simp only [polyAlts]
  rw [ringAlts_map f hf q.1, ringsAlts_map f hf q.2]

mutual

/-- Vertex-wise transformation preserves the topology skeleton (geometry
type and all vertex counts). -/
theorem skeleton_mapVerts (f : V3 → V3) : ∀ g, skeleton (mapVerts f g) = skeleton g
  | .point _ => rfl
  | .multiPoint ps => by simp [mapVerts, skeleton]
  | .lineString ps => by simp [mapVerts, skeleton]
  | .multiLineString ls => by simp [mapVerts, skeleton, List.map_map, Function.comp_def]
  | .polygon sh hs => by simp [mapVerts, skeleton, List.map_map, Function.comp_def]
  | .multiPolygon ps => by simp [mapVerts, skeleton, List.map_map, Function.comp_def]
  | .collection gs => by
      simp only [mapVerts, skeleton]
      rw [skeletonList_mapVertsList f gs]

/-- `skeleton_mapVerts` for collections. -/
theorem skeletonList_mapVertsList (f : V3 → V3) :
    ∀ gs, skeletonList (mapVertsList f gs) = skeletonList gs
  | [] => rfl
  | g :: gs => by
      simp only [mapVertsList, skeletonList]
      rw [skeleton_mapVerts f g, skeletonList_mapVertsList f gs]

end

mutual

/-- A vertex map that keeps third coordinates leaves the altitude list of
any geometry unchanged. -/
theorem altitudes_mapVerts (f : V3 → V3) (hf : ∀ v, (f v).2.2 = v.2.2) :
    ∀ g, altitudes (mapVerts f g) = altitudes g
  | .point p => by simp [mapVerts, altitudes, hf p]
  | .multiPoint ps => by
      simp only [mapVerts, altitudes]; exact ringAlts_map f hf ps
  | .lineString ps => by
      simp only [mapVerts, altitudes]; exact ringAlts_map f hf ps
  | .multiLineString ls => by
      simp only [mapVerts, altitudes]; exact ringsAlts_map f hf ls
  | .polygon sh hs => by
      simp only [mapVerts, altitudes]
      rw [ringAlts_map f hf sh, ringsAlts_map f hf hs]
  | .multiPolygon ps => by
      simp only [mapVerts, altitudes, List.map_map]
      congr 1
      exact List.map_congr_left fun q _ => polyAlts_map f hf q
  | .collection gs => by
      simp only [mapVerts, altitudes]
      exact altitudesList_mapVertsList f hf gs

/-- `altitudes_mapVerts` for collections. -/
theorem altitudesList_mapVertsList (f : V3 → V3) (hf : ∀ v, (f v).2.2 = v.2.2) :
    ∀ gs, altitudesList (mapVertsList f gs) = altitudesList gs
  | [] => rfl
  | g :: gs => by
      simp only [mapVertsList, altitudesList]
      rw [altitudes_mapVerts f hf g, altitudesList_mapVertsList f hf gs]

end

/-- C1: the claim "for every input image whose (height, width) shape does
not match the calibration's image_size, ProjectionService.project raises
ProjectionError" is false: `project` performs no image-shape check.  At the
explicit input below the service is constructed successfully from the
fully valid calibration `cal1`, the image has shape `(3, 5, 1)` while
`image_size = (4, 4)`, yet `project` returns a result. -/
theorem claim_C1_counterexample :
    (img0.H, img0.W) ≠ cal1.imageSize ∧
      mkProjectionService witLndi cal1 st0 = .ok svc1 ∧
      ∃ out, project svc1 img0 true = .ok out :=
  ⟨by decide, rfl, ⟨_, rfl⟩⟩

/-- C1 (amended): `project` performs no image-shape check.  It raises
`ProjectionError` when the cached interpolant or angular grid is
uninitialized (interpolation construction failed), and when the sampling
path fails internally — on a built service this happens for an image with
a zero-length axis, whose IndexError the catch-all `except` wraps; any
image with nonzero axes, in particular every image whose shape differs
from `image_size`, is projected without error (out-of-range raw
coordinates merely sample as the fill value 0). -/
theorem claim_C1_amended (svc : ProjectionService) (img : Image) (asUint8 : Bool) :
    ((svc.azimuthZenithToPixelRaw = none ∨ svc.azimuthZenithGrid = none) →
      ∃ e, project svc img asUint8 = .error e) ∧
    ((img.H = 0 ∨ img.W = 0) → svc.azimuthZenithToPixelRaw.isSome = true →
      svc.azimuthZenithGrid.isSome = true → ∃ e, project svc img asUint8 = .error e) ∧
    (1 ≤ img.H → 1 ≤ img.W → svc.azimuthZenithToPixelRaw.isSome = true →
      svc.azimuthZenithGrid.isSome = true → ∃ out, project svc img asUint8 = .ok out) := by
  refine ⟨?_, ?_, ?_⟩
  · intro hnone
    cases hF : svc.azimuthZenithToPixelRaw with
    | none => exact ⟨⟨"Interpolators not initialized"⟩, by simp [project, hF]⟩
    | some F =>
        cases hG : svc.azimuthZenithGrid with
        | none => exact ⟨⟨"Grid not initialized"⟩, by simp [project, hF, hG]⟩
        | some G =>
            rcases hnone with h | h
            · rw [hF] at h
              exact Option.noConfusion h
            · rw [hG] at h
              exact Option.noConfusion h
  · intro h0 hFs hGs
    cases hF : svc.azimuthZenithToPixelRaw with
    | none =>
        rw [hF] at hFs
        simp at hFs
    | some F =>
        cases hG : svc.azimuthZenithGrid with
        | none =>
            rw [hG] at hGs
            simp at hGs
        | some G =>
            refine ⟨⟨"Projection failed: zero-size image axis"⟩, ?_⟩
            simp only [project, hF, hG]
            rw [if_pos h0]
  · intro hH hW hFs hGs
    cases hF : svc.azimuthZenithToPixelRaw with
    | none =>
        rw [hF] at hFs
        simp at hFs
    | some F =>
        cases hG : svc.azimuthZenithGrid with
        | none =>
            rw [hG] at hGs
            simp at hGs
        | some G =>
            simp only [project, hF, hG,
              if_neg (show ¬(img.H = 0 ∨ img.W = 0) by omega)]
            exact ⟨_, rfl⟩

/-- C1 (amended), instantiated on the built service `svc1`: a zero-row
image raises `ProjectionError` through the catch-all, while the
shape-mismatched image `img0` projects without error. -/
theorem claim_C1_witness :
    (∃ e, project svc1 imgZero true = .error e) ∧
      ∃ out, project svc1 img0 true = .ok out :=
  ⟨(claim_C1_amended svc1 imgZero true).2.1 (Or.inl rfl) rfl rfl,
   (claim_C1_amended svc1 img0 true).2.2 (by decide) (by decide) rfl rfl⟩

/-- C2: evaluation of the code at the point where it contradicts the claim
(and the repository's own `tests/domain/test_lazy_init.py`): a
`ProjectionService` is born **built** — `__post_init__` unconditionally
runs `_init_interpolators`, so whenever the constructor returns an
instance at all (interpolant construction did not raise), both cached
fields are already populated, for every calibration, settings and
interpolation engine; there is no unbuilt state reachable on a constructed
instance, no `lazy_init` flag, and no `ensure_built`/`ensure_initialized`
method in `projection.py`. -/
theorem claim_C2_built_at_construction (lndi : LndiEval) (cal : CalibrationData)
    (st : ProjectionSettings) (svc : ProjectionService)
    (h : mkProjectionService lndi cal st = .ok svc) :
    svc.azimuthZenithToPixelRaw.isSome = true ∧ svc.azimuthZenithGrid.isSome = true := by
  unfold mkProjectionService initInterpolators at h
  cases hl : lndi (calibPoints cal st) with
  | error e =>
      rw [hl] at h
      simp at h
  | ok F =>
      rw [hl] at h
      simp only [Except.ok.injEq] at h
      subst h
      exact ⟨rfl, rfl⟩

/-- C2, instantiated at the concrete construction of `svc1`. -/
theorem claim_C2_witness :
    mkProjectionService witLndi cal1 st0 = .ok svc1 ∧
      svc1.azimuthZenithToPixelRaw.isSome = true ∧
      svc1.azimuthZenithGrid.isSome = true :=
  ⟨rfl, claim_C2_built_at_construction witLndi cal1 st0 svc1 rfl⟩

/-- C8: `project_geometry` and `project_geometry_back` preserve the
geometry type and the complete topology skeleton (vertex count of every
ring), and pass every vertex's third coordinate (altitude) through
unchanged. -/
theorem claim_C8_shape_preservation (p : AircraftProjector) (g : Geometry) :
    skeleton (projectGeometry p g) = skeleton g ∧
      altitudes (projectGeometry p g) = altitudes g ∧
      skeleton (projectGeometryBack p g) = skeleton g ∧
      altitudes (projectGeometryBack p g) = altitudes g :=
  ⟨skeleton_mapVerts _ g,
   altitudes_mapVerts (projVert (lonlatToPixels1 p)) (fun _ => rfl) g,
   skeleton_mapVerts _ g,
   altitudes_mapVerts (projVert (pixelsToLonlat1 p)) (fun _ => rfl) g⟩

/-- C10: the public batch methods accept bare scalars: `np.atleast_1d`
coerces each to a shape-`(1,)` array before the shape-equality check, so
three scalars always pass validation and both methods return `(1,)`-shaped
arrays (never bare scalars). -/
theorem claim_C10_scalar_inputs (p : AircraftProjector) (x y z : ℝ) :
    (∃ u v, lonlatToPixels p (.scalar x) (.scalar y) (.scalar z) = .ok (u, v) ∧
        u.length = 1 ∧ v.length = 1) ∧
      (∃ u v, pixelsToLonlat p (.scalar x) (.scalar y) (.scalar z) = .ok (u, v) ∧
        u.length = 1 ∧ v.length = 1) :=
  ⟨⟨_, _, rfl, rfl, rfl⟩, ⟨_, _, rfl, rfl, rfl⟩⟩

/-- C3: the claim "a query exactly at the far boundary is treated as
out-of-bounds and returns zero" is false for the sampler `project` uses
(`RegularGridInterpolator` with `bounds_error=False, fill_value=0`): on the
concrete 2×2 image `img1`, the query `(H−1, W−1) = (1, 1)` returns the
boundary pixel value 7, not zero. -/
theorem claim_C3_counterexample :
    regularGridSample img1 (1 : ℚ) (1 : ℚ) 0 = 7 ∧ (7 : ℚ) ≠ 0 := by
  constructor
  · norm_num [regularGridSample, img1]
  · norm_num

/-- C3 (amended): for the regular-grid sampler used by `project`, only
queries strictly outside `[0, H−1] × [0, W−1]` (or NaN) are filled with
zero; a query exactly at the far boundary `(H−1, W−1)` is in bounds and
returns the boundary pixel's exact value for every channel. -/
theorem claim_C3_amended (img : Image) (ch : ℕ) (h2 : 2 ≤ img.H) (w2 : 2 ≤ img.W) :
    regularGridSample img ((img.H : ℚ) - 1) ((img.W : ℚ) - 1) ch
      = (img.pix (img.H - 1) (img.W - 1) ch : ℚ) := by
  have hH : (2 : ℚ) ≤ (img.H : ℚ) := by exact_mod_cast h2
  have hW : (2 : ℚ) ≤ (img.W : ℚ) := by exact_mod_cast w2
  have hfloorH : ⌊((img.H : ℚ) - 1)⌋ = (img.H : ℤ) - 1 := by
    rw [show ((img.H : ℚ) - 1) = (((img.H : ℤ) - 1 : ℤ) : ℚ) by push_cast; ring,
      Int.floor_intCast]
  have hfloorW : ⌊((img.W : ℚ) - 1)⌋ = (img.W : ℤ) - 1 := by
    rw [show ((img.W : ℚ) - 1) = (((img.W : ℤ) - 1 : ℤ) : ℚ) by push_cast; ring,
      Int.floor_intCast]
  have hminH : min ((img.H : ℤ) - 1) ((img.H : ℤ) - 2) = (img.H : ℤ) - 2 :=
    min_eq_right (by omega)
  have hminW : min ((img.W : ℤ) - 1) ((img.W : ℤ) - 2) = (img.W : ℤ) - 2 :=
    min_eq_right (by omega)
  rw [regularGridSample, if_neg]
  · simp only [hfloorH, hfloorW, hminH, hminW]
    have haH : ((img.H : ℚ) - 1) - (((img.H : ℤ) - 2 : ℤ) : ℚ) = 1 := by push_cast; ring
    have haW : ((img.W : ℚ) - 1) - (((img.W : ℤ) - 2 : ℤ) : ℚ) = 1 := by push_cast; ring
    have hiH : ((img.H : ℤ) - 2 + 1).toNat = img.H - 1 := by omega
    have hiW : ((img.W : ℤ) - 2 + 1).toNat = img.W - 1 := by omega
    rw [haH, haW, hiH, hiW]
    ring
  · push_neg
    refine ⟨by linarith, le_refl _, by linarith, le_refl _⟩

/-- C3, amended theorem instantiated: on the concrete image `img1` the
far-boundary query returns the boundary pixel value. -/
theorem claim_C3_witness :
    2 ≤ img1.H ∧ 2 ≤ img1.W ∧
      regularGridSample img1 ((img1.H : ℚ) - 1) ((img1.W : ℚ) - 1) 0
        = (img1.pix (img1.H - 1) (img1.W - 1) 0 : ℚ) :=
  ⟨by decide, by decide, claim_C3_amended img1 0 (by decide) (by decide)⟩

/-- The output-grid axis `np.arange(-half, half + step, step)` has exactly
`resolution` samples (in exact arithmetic `(2·half + step)/step =
resolution`). -/
theorem gridXs_length (st : ProjectionSettings) (h2 : 2 ≤ st.resolution)
    (hsq : 0 < st.squareSize) : (gridXs st).length = st.resolution := by
  have hres : ((st.resolution : ℚ) - 1) ≠ 0 := by
    have : (2 : ℚ) ≤ (st.resolution : ℚ) := by exact_mod_cast h2
    intro h
    linarith
  have hsq' : st.squareSize ≠ 0 := ne_of_gt hsq
  have hs : stepQ st ≠ 0 := div_ne_zero hsq' hres
  have key : (halfSizeQ st + stepQ st - -halfSizeQ st) / stepQ st = (st.resolution : ℚ) := by
    rw [div_eq_iff hs]
    unfold halfSizeQ stepQ
    field_simp
    ring
  have hlen : arangeLen (-halfSizeQ st) (halfSizeQ st + stepQ st) (stepQ st)
      = st.resolution := by
    unfold arangeLen
    rw [key, Int.ceil_natCast, Int.toNat_natCast]
  simp only [gridXs, arangeQ, List.length_map, List.length_range, hlen]

/-- On a built service, `project` succeeds on every image with nonzero axes
and the output dimensions are the angular grid's dimensions plus the
input's channel count. -/
theorem project_ok (svc : ProjectionService) (img : Image) (asUint8 : Bool)
    (F : (ℝ × ℝ) → Option (ℝ × ℝ)) (G : AzGrid)
    (hF : svc.azimuthZenithToPixelRaw = some F) (hG : svc.azimuthZenithGrid = some G)
    (h0 : ¬(img.H = 0 ∨ img.W = 0)) :
    ∃ out, project svc img asUint8 = .ok out ∧
      out.rows = G.rows ∧ out.cols = G.cols ∧ out.channels = img.C := by
  simp only [project, hF, hG, if_neg h0]
  exact ⟨_, rfl, rfl, rfl, rfl⟩

/-- C4: for every valid input image (nonzero axes; a shape matching
`image_size` in particular), `project` succeeds on a constructed service
and the output has shape exactly `(resolution, resolution, C)` where
`resolution` comes from the settings and `C` is the input's channel
count. -/
theorem claim_C4_output_shape (lndi : LndiEval) (cal : CalibrationData)
    (st : ProjectionSettings) (img : Image) (asUint8 : Bool) (svc : ProjectionService)
    (hmk : mkProjectionService lndi cal st = .ok svc)
    (h2 : 2 ≤ st.resolution) (hsq : 0 < st.squareSize)
    (hH : 1 ≤ img.H) (hW : 1 ≤ img.W) :
    ∃ out, project svc img asUint8 = .ok out ∧
      out.rows = st.resolution ∧ out.cols = st.resolution ∧ out.channels = img.C := by
  unfold mkProjectionService initInterpolators at hmk
  cases hl : lndi (calibPoints cal st) with
  | error e =>
      rw [hl] at hmk
      simp at hmk
  | ok F =>
      rw [hl] at hmk
      simp only [Except.ok.injEq] at hmk
      subst hmk
      obtain ⟨out, hout, hrows, hcols, hch⟩ :=
        project_ok
          ⟨cal, st, some F,
           some ⟨(gridXs st).length, (gridXs st).length, azimuthZenithCell st⟩⟩
          img asUint8 F
          ⟨(gridXs st).length, (gridXs st).length, azimuthZenithCell st⟩ rfl rfl (by omega)
      refine ⟨out, hout, ?_, ?_, hch⟩
      · rw [hrows]
        exact gridXs_length st h2 hsq
      · rw [hcols]
        exact gridXs_length st h2 hsq

/-- C4, instantiated at the concrete settings `st0` (resolution 4), the
concrete valid calibration `cal1` and the concrete image `img0`
(1 channel). -/
theorem claim_C4_witness :
    2 ≤ st0.resolution ∧ 0 < st0.squareSize ∧ 1 ≤ img0.H ∧ 1 ≤ img0.W ∧
      mkProjectionService witLndi cal1 st0 = .ok svc1 ∧
      ∃ out, project svc1 img0 true = .ok out ∧
        out.rows = st0.resolution ∧ out.cols = st0.resolution ∧ out.channels = img0.C :=
  ⟨by decide, by decide, by decide, by decide, rfl,
   claim_C4_output_shape witLndi cal1 st0 img0 true svc1 rfl (by decide) (by decide)
     (by decide) (by decide)⟩

/-- Converting radians to degrees and back is the identity. -/
theorem degToRad_radToDeg (x : ℝ) : degToRad (radToDeg x) = x := by
  unfold degToRad radToDeg
  field_simp

/-- `radians (90 − degrees x) = π/2 − x`, the exact cancellation used when a
zenith angle produced in degrees is consumed again in radians. -/
theorem degToRad_ninety_sub (x : ℝ) : degToRad (90 - radToDeg x) = Real.pi / 2 - x := by
  unfold degToRad radToDeg
  field_simp
  ring

/-- Elements of the output-grid axis list: `x[j] = -half + j·step`. -/
theorem gridXs_getD (st : ProjectionSettings) (h2 : 2 ≤ st.resolution)
    (hsq : 0 < st.squareSize) (j : ℕ) (hj : j < st.resolution) :
    (gridXs st).getD j 0 = -halfSizeQ st + (j : ℚ) * stepQ st := by
  have hlen : (gridXs st).length = st.resolution := gridXs_length st h2 hsq
  rw [List.getD_eq_getElem _ _ (by rw [hlen]; exact hj)]
  simp only [gridXs, arangeQ, List.getElem_map, List.getElem_range]

/-- C7: for every output cell `(i, j)` of the angular grid built by
`_init_interpolators`, with planar coordinates `x = −half + j·step` (column
axis) and `y = −half + i·step` (row axis), the stored pair is exactly
`(((atan2 y x − 3π/2) mod 2π) − π, atan(√(x² + y²) / cloud_height))` —
i.e. `r = √(x² + y²)`, `zen = atan(r / cloud_height)`, `az = atan2(y, x)`
followed by the legacy azimuth alignment `az ← ((az − 3π/2) mod 2π) − π`,
where `mod` is the Python float modulo. -/
theorem claim_C7_grid_formulas (st : ProjectionSettings) (i j : ℕ)
    (h2 : 2 ≤ st.resolution) (hsq : 0 < st.squareSize)
    (hi : i < st.resolution) (hj : j < st.resolution) :
    azimuthZenithCell st i j =
      (pymod (atan2 (-(halfSizeQ st : ℝ) + (i : ℝ) * (stepQ st : ℝ))
            (-(halfSizeQ st : ℝ) + (j : ℝ) * (stepQ st : ℝ)) - 3 * Real.pi / 2)
          (2 * Real.pi) - Real.pi,
       Real.arctan (Real.sqrt ((-(halfSizeQ st : ℝ) + (j : ℝ) * (stepQ st : ℝ)) ^ 2
            + (-(halfSizeQ st : ℝ) + (i : ℝ) * (stepQ st : ℝ)) ^ 2)
          / (st.cloudHeight : ℝ))) := by
  have hx : meshX st i j = -(halfSizeQ st : ℝ) + (j : ℝ) * (stepQ st : ℝ) := by
    simp only [meshX, gridXs_getD st h2 hsq j hj]
    push_cast
    ring
  have hy : meshY st i j = -(halfSizeQ st : ℝ) + (i : ℝ) * (stepQ st : ℝ) := by
    simp only [meshY, gridXs_getD st h2 hsq i hi]
    push_cast
    ring
  simp only [azimuthZenithCell, cellAzimuth, cellAzimuthRaw, cellZenith, cellR, hx, hy]

/-- C7, instantiated at the concrete settings `st0` and cell `(0, 1)`. -/
theorem claim_C7_witness :
    2 ≤ st0.resolution ∧ 0 < st0.squareSize ∧ 0 < st0.resolution ∧ 1 < st0.resolution ∧
      azimuthZenithCell st0 0 1 =
        (pymod (atan2 (-(halfSizeQ st0 : ℝ) + ((0 : ℕ) : ℝ) * (stepQ st0 : ℝ))
              (-(halfSizeQ st0 : ℝ) + ((1 : ℕ) : ℝ) * (stepQ st0 : ℝ)) - 3 * Real.pi / 2)
            (2 * Real.pi) - Real.pi,
         Real.arctan (Real.sqrt ((-(halfSizeQ st0 : ℝ) + ((1 : ℕ) : ℝ) * (stepQ st0 : ℝ)) ^ 2
              + (-(halfSizeQ st0 : ℝ) + ((0 : ℕ) : ℝ) * (stepQ st0 : ℝ)) ^ 2)
            / (st0.cloudHeight : ℝ))) :=
  ⟨by decide, by decide, by decide, by decide,
   claim_C7_grid_formulas st0 0 1 (by decide) (by decide) (by decide) (by decide)⟩

/-- Zenith-axis computation: when the geodesic inverse of the camera
position against itself reports ground distance 0 and the target is
strictly above the camera, the elementwise forward pipeline lands exactly
on the grid center `(half/step, half/step)`. -/
theorem center_pixel (p : AircraftProjector) (alt : ℝ)
    (hs12 : (p.geod.Inverse p.cameraLat p.cameraLon p.cameraLat p.cameraLon).2 = 0)
    (halt : p.cameraAlt < alt) :
    lonlatToPixels1 p p.cameraLon p.cameraLat alt = (pHalf p / pStep p, pHalf p / pStep p) := by
  have hdz : 0 < alt - p.cameraAlt := by linarith
  simp only [lonlatToPixels1, calcAzimuthZenith1, azimuthZenithToXY1, xyToPixels1]
  rw [hs12, show (0 : ℝ) ^ 2 + (alt - p.cameraAlt) ^ 2 = (alt - p.cameraAlt) ^ 2 from by ring,
    Real.sqrt_sq hdz.le, div_self (ne_of_gt hdz), Real.arcsin_one, degToRad_ninety_sub,
    sub_self, Real.tan_zero, mul_zero, zero_mul, zero_mul, zero_add, sub_zero]

/-- C6: for every altitude strictly above the camera, `lonlat_to_pixels`
applied to the observer's own `(camera_lon, camera_lat)` returns the grid
center `(half/step, half/step)` in both axes — exactly, hence to within 1
pixel.  Uses the WGS84 contract that the geodesic inverse of a point
against itself has ground distance 0. -/
theorem claim_C6_center_invariance (p : AircraftProjector) (alt : ℝ)
    (hs12 : (p.geod.Inverse p.cameraLat p.cameraLon p.cameraLat p.cameraLon).2 = 0)
    (halt : p.cameraAlt < alt) :
    ∃ px py,
      lonlatToPixels p (.array [p.cameraLon]) (.array [p.cameraLat]) (.array [alt])
          = .ok ([px], [py]) ∧
        |px - pHalf p / pStep p| ≤ 1 ∧ |py - pHalf p / pStep p| ≤ 1 := by
  have hc := center_pixel p alt hs12 halt
  refine ⟨(lonlatToPixels1 p p.cameraLon p.cameraLat alt).1,
    (lonlatToPixels1 p p.cameraLon p.cameraLat alt).2, rfl, ?_, ?_⟩
  · rw [hc]
    simp
  · rw [hc]
    simp

/-- C6, instantiated at the concrete projector `witProj` (observer at
altitude 0) and target altitude 1. -/
theorem claim_C6_witness :
    (witProj.geod.Inverse witProj.cameraLat witProj.cameraLon
        witProj.cameraLat witProj.cameraLon).2 = 0 ∧
      witProj.cameraAlt < 1 ∧
      ∃ px py,
        lonlatToPixels witProj (.array [witProj.cameraLon]) (.array [witProj.cameraLat])
            (.array [1]) = .ok ([px], [py]) ∧
          |px - pHalf witProj / pStep witProj| ≤ 1 ∧ |py - pHalf witProj / pStep witProj| ≤ 1 :=
  ⟨rfl, by norm_num [witProj], claim_C6_center_invariance witProj 1 rfl (by norm_num [witProj])⟩

/-- Arctangent of a nonnegative number is nonnegative. -/
theorem arctanNonneg {t : ℝ} (ht : 0 ≤ t) : 0 ≤ Real.arctan t := by
  rw [Real.arctan_eq_arcsin]
  exact Real.arcsin_nonneg.2 (div_nonneg ht (Real.sqrt_nonneg _))

/-- Modulus of the complex number `⟨x, y⟩`. -/
theorem complexAbs_mk (x y : ℝ) : Complex.abs ⟨x, y⟩ = Real.sqrt (x ^ 2 + y ^ 2) := by
  rw [Complex.abs_apply, Complex.normSq_mk]
  congr 1
  ring

/-- Cosine recovery from `atan2`: `r·cos(atan2 y x) = x` when `r = √(x²+y²)`
is nonzero. -/
theorem mul_cos_atan2 (x y : ℝ) (h : Real.sqrt (x ^ 2 + y ^ 2) ≠ 0) :
    Real.sqrt (x ^ 2 + y ^ 2) * Real.cos (atan2 y x) = x := by
  have hw : (⟨x, y⟩ : ℂ) ≠ 0 := by
    intro h0
    apply h
    rw [Complex.ext_iff] at h0
    simp only [Complex.zero_re, Complex.zero_im] at h0
    rw [h0.1, h0.2]
    simp
  rw [atan2, Complex.cos_arg hw]
  rw [show (⟨x, y⟩ : ℂ).re = x from rfl, complexAbs_mk]
  rw [mul_comm, div_mul_cancel₀ _ h]

/-- Sine recovery from `atan2`: `r·sin(atan2 y x) = y` when `r = √(x²+y²)`
is nonzero. -/
theorem mul_sin_atan2 (x y : ℝ) (h : Real.sqrt (x ^ 2 + y ^ 2) ≠ 0) :
    Real.sqrt (x ^ 2 + y ^ 2) * Real.sin (atan2 y x) = y := by
  rw [atan2, Complex.sin_arg]
  rw [show (⟨x, y⟩ : ℂ).im = y from rfl, complexAbs_mk]
  rw [mul_comm, div_mul_cancel₀ _ h]

/-- Elevation recovery: with ground distance `dz·t` and height difference
`dz > 0`, `arcsin(dz / √((dz·t)² + dz²)) = π/2 − arctan t`. -/
theorem arcsin_ratio (dz t : ℝ) (hdz : 0 < dz) (ht : 0 ≤ t) :
    Real.arcsin (dz / Real.sqrt ((dz * t) ^ 2 + dz ^ 2)) = Real.pi / 2 - Real.arctan t := by
  have h1 : (dz * t) ^ 2 + dz ^ 2 = dz ^ 2 * (t ^ 2 + 1) := by ring
  have hs : Real.sqrt (t ^ 2 + 1) ≠ 0 := by
    refine ne_of_gt (Real.sqrt_pos.2 ?_)
    positivity
  rw [h1, Real.sqrt_mul (sq_nonneg dz), Real.sqrt_sq hdz.le]
  rw [show dz / (dz * Real.sqrt (t ^ 2 + 1)) = 1 / Real.sqrt (t ^ 2 + 1) from by
    rw [div_mul_eq_div_div, div_self (ne_of_gt hdz)]]
  rw [show (t ^ 2 + 1 : ℝ) = 1 + t ^ 2 from by ring, ← Real.cos_arctan]
  rw [← Real.sin_pi_div_two_sub, Real.arcsin_sin]
  · have := Real.arctan_lt_pi_div_two t
    have := Real.pi_pos
    linarith
  · have := arctanNonneg ht
    linarith

/-- The surface distance computed by `_azimuth_zenith_to_lonlat` from a
zenith that came out of `atan(w/c)`: `dz / tan(radians(90 − degrees(atan
(w/c)))) = dz·(w/c)`. -/
theorem distRecover (dz w c : ℝ) :
    dz / Real.tan (degToRad (90 - radToDeg (Real.arctan (w / c)))) = dz * (w / c) := by
  rw [degToRad_ninety_sub, Real.tan_pi_div_two_sub, Real.tan_arctan, div_inv_eq_mul]

/-- Explicit formula for `pixels_to_lonlat` on one element: the geodesic
direct problem at azimuth `degrees(atan2(y_c, x_c))` and surface distance
`dz·(√(x_c² + y_c²)/cloud_height)`, returning `(lon2, lat2)`. -/
theorem pixelsToLonlat1_eq (p : AircraftProjector) (px py alt : ℝ) :
    pixelsToLonlat1 p px py alt
      = ((p.geod.Direct p.cameraLat p.cameraLon
            (radToDeg (atan2 (px * pStep p - pHalf p) (pHalf p - py * pStep p)))
            ((alt - p.cameraAlt) * (Real.sqrt ((pHalf p - py * pStep p) ^ 2
                + (px * pStep p - pHalf p) ^ 2) / p.settings.cloudHeight))).2,
         (p.geod.Direct p.cameraLat p.cameraLon
            (radToDeg (atan2 (px * pStep p - pHalf p) (pHalf p - py * pStep p)))
            ((alt - p.cameraAlt) * (Real.sqrt ((pHalf p - py * pStep p) ^ 2
                + (px * pStep p - pHalf p) ^ 2) / p.settings.cloudHeight))).1) := by
  simp only [pixelsToLonlat1, pixelsToXY1, xyToAzimuthZenith1, azimuthZenithToLonlat1]
  rw [distRecover]

/-- Explicit formula for `lonlat_to_pixels` on one element, given the value
of the geodesic inverse problem at the target. -/
theorem lonlatToPixels1_of_inverse (p : AircraftProjector) (lon lat alt az s : ℝ)
    (hinv : p.geod.Inverse p.cameraLat p.cameraLon lat lon = (az, s)) :
    lonlatToPixels1 p lon lat alt
      = ((p.settings.cloudHeight * Real.tan (degToRad (90 - radToDeg (Real.arcsin
            ((alt - p.cameraAlt) / Real.sqrt (s ^ 2 + (alt - p.cameraAlt) ^ 2)))))
            * Real.sin (degToRad az) + pHalf p) / pStep p,
         (pHalf p - p.settings.cloudHeight * Real.tan (degToRad (90 - radToDeg (Real.arcsin
            ((alt - p.cameraAlt) / Real.sqrt (s ^ 2 + (alt - p.cameraAlt) ^ 2)))))
            * Real.cos (degToRad az)) / pStep p) := by
  simp only [lonlatToPixels1, calcAzimuthZenith1, azimuthZenithToXY1, xyToPixels1, hinv]

/-- Exact elementwise round trip `pixels → lonlat → pixels`, assuming the
WGS84 contract that the geodesic inverse problem recovers the azimuth and
distance handed to the direct problem (azimuth only needed at positive
distance). -/
theorem roundtrip_core (p : AircraftProjector) (px py alt : ℝ)
    (h2 : 2 ≤ p.settings.resolution) (hsq : 0 < p.settings.squareSize)
    (hch : 0 < p.settings.cloudHeight) (halt : p.cameraAlt + 100 ≤ alt)
    (Hd : ∀ az d, 0 < d →
      p.geod.Inverse p.cameraLat p.cameraLon
        (p.geod.Direct p.cameraLat p.cameraLon az d).1
        (p.geod.Direct p.cameraLat p.cameraLon az d).2 = (az, d))
    (Hd0 : ∀ az,
      (p.geod.Inverse p.cameraLat p.cameraLon
        (p.geod.Direct p.cameraLat p.cameraLon az 0).1
        (p.geod.Direct p.cameraLat p.cameraLon az 0).2).2 = 0) :
    lonlatToPixels1 p (pixelsToLonlat1 p px py alt).1 (pixelsToLonlat1 p px py alt).2 alt
      = (px, py) := by
  have hdz : 0 < alt - p.cameraAlt := by linarith
  have hstep : pStep p ≠ 0 := by
    unfold pStep
    refine div_ne_zero (ne_of_gt hsq) ?_
    have : (2 : ℝ) ≤ (p.settings.resolution : ℝ) := by exact_mod_cast h2
    intro h
    linarith
  rw [pixelsToLonlat1_eq]
  rcases eq_or_lt_of_le (Real.sqrt_nonneg
      ((pHalf p - py * pStep p) ^ 2 + (px * pStep p - pHalf p) ^ 2)) with hr | hr
  · -- zero radius: the query is the exact grid center
    have hsum : (pHalf p - py * pStep p) ^ 2 + (px * pStep p - pHalf p) ^ 2 = 0 := by
      have h0 := hr.symm
      rwa [Real.sqrt_eq_zero (by positivity)] at h0
    have hxc : pHalf p - py * pStep p = 0 := by
      have h1 : (pHalf p - py * pStep p) ^ 2 = 0 := by
        nlinarith [sq_nonneg (pHalf p - py * pStep p), sq_nonneg (px * pStep p - pHalf p)]
      exact (pow_eq_zero_iff two_ne_zero).1 h1
    have hyc : px * pStep p - pHalf p = 0 := by
      have h1 : (px * pStep p - pHalf p) ^ 2 = 0 := by
        nlinarith [sq_nonneg (pHalf p - py * pStep p), sq_nonneg (px * pStep p - pHalf p)]
      exact (pow_eq_zero_iff two_ne_zero).1 h1
    rw [← hr, zero_div, mul_zero]
    have hinv : p.geod.Inverse p.cameraLat p.cameraLon
        (p.geod.Direct p.cameraLat p.cameraLon
          (radToDeg (atan2 (px * pStep p - pHalf p) (pHalf p - py * pStep p))) 0).1
        (p.geod.Direct p.cameraLat p.cameraLon
          (radToDeg (atan2 (px * pStep p - pHalf p) (pHalf p - py * pStep p))) 0).2
        = ((p.geod.Inverse p.cameraLat p.cameraLon
            (p.geod.Direct p.cameraLat p.cameraLon
              (radToDeg (atan2 (px * pStep p - pHalf p) (pHalf p - py * pStep p))) 0).1
            (p.geod.Direct p.cameraLat p.cameraLon
              (radToDeg (atan2 (px * pStep p - pHalf p) (pHalf p - py * pStep p))) 0).2).1,
           0) :=
      Prod.ext_iff.2 ⟨rfl, Hd0 _⟩
    rw [lonlatToPixels1_of_inverse p _ _ alt _ 0 hinv]
    rw [show (0 : ℝ) ^ 2 + (alt - p.cameraAlt) ^ 2 = (alt - p.cameraAlt) ^ 2 from by ring,
      Real.sqrt_sq hdz.le, div_self (ne_of_gt hdz), Real.arcsin_one, degToRad_ninety_sub,
      sub_self, Real.tan_zero, mul_zero, zero_mul, zero_mul, zero_add, sub_zero]
    have hpx : pHalf p / pStep p = px := by
      rw [div_eq_iff hstep]
      linarith
    have hpy : pHalf p / pStep p = py := by
      rw [div_eq_iff hstep]
      linarith
    exact Prod.ext_iff.2 ⟨hpx, hpy⟩
  · -- positive radius
    have hrne : Real.sqrt ((pHalf p - py * pStep p) ^ 2 + (px * pStep p - pHalf p) ^ 2) ≠ 0 :=
      ne_of_gt hr
    have hdistpos : 0 < (alt - p.cameraAlt) *
        (Real.sqrt ((pHalf p - py * pStep p) ^ 2 + (px * pStep p - pHalf p) ^ 2)
          / p.settings.cloudHeight) :=
      mul_pos hdz (div_pos hr hch)
    have hinv := Hd (radToDeg (atan2 (px * pStep p - pHalf p) (pHalf p - py * pStep p)))
      ((alt - p.cameraAlt) *
        (Real.sqrt ((pHalf p - py * pStep p) ^ 2 + (px * pStep p - pHalf p) ^ 2)
          / p.settings.cloudHeight)) hdistpos
    rw [lonlatToPixels1_of_inverse p _ _ alt _ _ hinv]
    rw [arcsin_ratio (alt - p.cameraAlt)
      (Real.sqrt ((pHalf p - py * pStep p) ^ 2 + (px * pStep p - pHalf p) ^ 2)
        / p.settings.cloudHeight) hdz (div_nonneg (Real.sqrt_nonneg _) hch.le)]
    rw [degToRad_ninety_sub]
    rw [show Real.pi / 2 - (Real.pi / 2 - Real.arctan
        (Real.sqrt ((pHalf p - py * pStep p) ^ 2 + (px * pStep p - pHalf p) ^ 2)
          / p.settings.cloudHeight))
        = Real.arctan (Real.sqrt ((pHalf p - py * pStep p) ^ 2 + (px * pStep p - pHalf p) ^ 2)
          / p.settings.cloudHeight) from by ring]
    rw [Real.tan_arctan, degToRad_radToDeg]
    rw [show p.settings.cloudHeight *
        (Real.sqrt ((pHalf p - py * pStep p) ^ 2 + (px * pStep p - pHalf p) ^ 2)
          / p.settings.cloudHeight)
        = Real.sqrt ((pHalf p - py * pStep p) ^ 2 + (px * pStep p - pHalf p) ^ 2) from by
      field_simp]
    rw [mul_sin_atan2 _ _ hrne, mul_cos_atan2 _ _ hrne]
    rw [Prod.mk.injEq]
    constructor
    · rw [sub_add_cancel, mul_div_cancel_right₀ _ hstep]
    · rw [sub_sub_cancel, mul_div_cancel_right₀ _ hstep]

/-- C5: for every pixel pair `(px, py)` within `[0, resolution−1]²` and
altitude at least `camera_alt + 100` meters, composing `pixels_to_lonlat`
followed by `lonlat_to_pixels` recovers `(px, py)` to within `1e−3` pixels
(in exact arithmetic the recovery is exact).  Uses the WGS84 contract that
the geodesic inverse problem recovers the azimuth and distance handed to
the direct problem. -/
theorem claim_C5_roundtrip_pixel (p : AircraftProjector) (px py alt : ℝ)
    (h2 : 2 ≤ p.settings.resolution) (hsq : 0 < p.settings.squareSize)
    (hch : 0 < p.settings.cloudHeight)
    (hpx0 : 0 ≤ px) (hpx1 : px ≤ (p.settings.resolution : ℝ) - 1)
    (hpy0 : 0 ≤ py) (hpy1 : py ≤ (p.settings.resolution : ℝ) - 1)
    (halt : p.cameraAlt + 100 ≤ alt)
    (Hd : ∀ az d, 0 < d →
      p.geod.Inverse p.cameraLat p.cameraLon
        (p.geod.Direct p.cameraLat p.cameraLon az d).1
        (p.geod.Direct p.cameraLat p.cameraLon az d).2 = (az, d))
    (Hd0 : ∀ az,
      (p.geod.Inverse p.cameraLat p.cameraLon
        (p.geod.Direct p.cameraLat p.cameraLon az 0).1
        (p.geod.Direct p.cameraLat p.cameraLon az 0).2).2 = 0) :
    ∃ lon lat,
      pixelsToLonlat p (.array [px]) (.array [py]) (.array [alt]) = .ok ([lon], [lat]) ∧
      ∃ qx qy,
        lonlatToPixels p (.array [lon]) (.array [lat]) (.array [alt]) = .ok ([qx], [qy]) ∧
          |qx - px| ≤ 1 / 1000 ∧ |qy - py| ≤ 1 / 1000 := by
  have hcore := roundtrip_core p px py alt h2 hsq hch halt Hd Hd0
  refine ⟨(pixelsToLonlat1 p px py alt).1, (pixelsToLonlat1 p px py alt).2, rfl,
    (lonlatToPixels1 p (pixelsToLonlat1 p px py alt).1
      (pixelsToLonlat1 p px py alt).2 alt).1,
    (lonlatToPixels1 p (pixelsToLonlat1 p px py alt).1
      (pixelsToLonlat1 p px py alt).2 alt).2, rfl, ?_, ?_⟩
  · rw [hcore]
    norm_num
  · rw [hcore]
    norm_num

/-- C5, instantiated at the concrete projector `witProj` (all pydantic
bounds satisfied, toy exact geodesic), pixel `(0, 0)` and altitude 100. -/
theorem claim_C5_witness :
    ∃ lon lat,
      pixelsToLonlat witProj (.array [0]) (.array [0]) (.array [100]) = .ok ([lon], [lat]) ∧
      ∃ qx qy,
        lonlatToPixels witProj (.array [lon]) (.array [lat]) (.array [100])
            = .ok ([qx], [qy]) ∧
          |qx - 0| ≤ 1 / 1000 ∧ |qy - 0| ≤ 1 / 1000 :=
  claim_C5_roundtrip_pixel witProj 0 0 100
    (by norm_num [witProj, witAirSettings])
    (by norm_num [witProj, witAirSettings])
    (by norm_num [witProj, witAirSettings])
    le_rfl
    (by norm_num [witProj, witAirSettings])
    le_rfl
    (by norm_num [witProj, witAirSettings])
    (by norm_num [witProj])
    (fun _ _ _ => rfl)
    (fun _ => rfl)

/-- C9: calling `lonlat_to_pixels` with the target exactly at the camera's
position and altitude raises no exception: the shape check passes, the
division `dz / straight = 0/0` produces NaN, and the NaN propagates so that
both returned pixel coordinates are NaN (`none` in the `FP` model).  Uses
the WGS84 fact that the inverse problem of a point against itself reports
ground distance 0. -/
theorem claim_C9_nan_propagation (p : AircraftProjector) (a : ℝ)
    (hinv : p.geod.Inverse p.cameraLat p.cameraLon p.cameraLat p.cameraLon = (a, 0)) :
    lonlatToPixelsFPCall p p.cameraLon p.cameraLat p.cameraAlt = .ok ([none], [none]) := by
  simp [lonlatToPixelsFPCall, lonlatToPixelsFP, hinv, fadd, fsub, fmul, fdiv, fsqrt,
    farcsin, ftan, fcos, fsin, fdegrees, fradians]

/-- C9, instantiated at the concrete projector `witProj`. -/
theorem claim_C9_witness :
    witProj.geod.Inverse witProj.cameraLat witProj.cameraLon
        witProj.cameraLat witProj.cameraLon = (0, 0) ∧
      lonlatToPixelsFPCall witProj witProj.cameraLon witProj.cameraLat witProj.cameraAlt
        = .ok ([none], [none]) :=
  ⟨rfl, claim_C9_nan_propagation witProj 0 rfl⟩

end Skycam
